import Mathlib

/-!
Shallow embedding of the LS-8 CPU emulator in src/cpu.py.

Modelling conventions, chosen to follow Python semantics exactly:
* Python integers are unbounded, so register cells, memory cells, the
  program counter and the flags register are modelled as `Int`.
* Python list indexing `l[i]` accepts `-len l <= i < len l`, with negative
  indices counting from the end; any other index raises `IndexError`.
* A handler that raises an exception returns `.error (s, e)` where `s` is
  the machine state at the moment the exception is raised (prints already
  performed, mutations already applied) and `e` identifies the exception.
* `print` appends one line to the `output` field of the state.
* `sys.exit()` in the `HLT` handler ends the run loop; it is modelled by
  the `halted` flag, which makes the run loop stop without advancing `pc`.
* The host-polling primitives `timer_interrupt` and `keyboard_interrupt`
  (wall clock, `msvcrt`) are the external collaborators excluded from the
  core; the run loop is modelled without them.  Within the first second of
  a run with no keystroke both are no-ops, so the modelled loop agrees
  with the source on the scenarios considered here.
-/

-- Module-level opcode constants of cpu.py (lines 7-32).

def ADD : Int := 0b10100000
def ADDI : Int := 0b10100101
def CMP : Int := 0b10100111
def MUL : Int := 0b10100010
def LDI : Int := 0b10000010
def PRN : Int := 0b01000111
def HLT : Int := 0b00000001
def PUSH : Int := 0b01000101
def POP : Int := 0b01000110
def CALL : Int := 0b01010000
def RET : Int := 0b00010001
def JMP : Int := 0b01010100
def JNE : Int := 0b01010110
def JEQ : Int := 0b01010101
def AND : Int := 0b10101000
def OR : Int := 0b10101010
def SHL : Int := 0b10101100
def SHR : Int := 0b10101101
def MOD : Int := 0b10100100
def XOR : Int := 0b10101011
def NOT : Int := 0b01101001
def IRET : Int := 0b00010011

/-- Register alias `SP = 7` (cpu.py line 34). -/
def SP : Int := 7

/-- Register alias `IM = 5` (cpu.py line 35).  Note that cpu.py defines no
constant `IS`, although `self.reg[IS]` is used in three methods. -/
def IM : Int := 5

/-- Name of the undefined module-level constant used by `check_interrupts`,
`timer_interrupt` and `keyboard_interrupt`. -/
def nameIS : String := "IS"

/-- Name of the undefined attribute called by `check_interrupts`. -/
def nameHelperPush : String := "helper_push"

/-- Name of the undefined attribute called by `IRET`. -/
def nameHandlePop : String := "handle_pop"

/-- Name of the undefined attribute called by `MOD` on a zero divisor. -/
def nameHandleHlt : String := "handle_hlt"

/-- The line printed by `MOD` on a zero divisor (cpu.py line 241). -/
def divideByZeroMsg : String := "ERROR: Cannot divide by zero"

/-- The Python exceptions the embedded code can raise. -/
inductive PyErr where
  | indexError : PyErr
  | nameError : String → PyErr
  | attributeError : String → PyErr
  | keyError : PyErr
  | valueError : PyErr
  deriving DecidableEq, Repr

/-- Machine state of the `CPU` object: `self.ram`, `self.reg`, `self.pc`,
`self.fl`, `self.interrupts_active`, plus the lines printed so far and
whether `sys.exit()` has ended the run loop. -/
structure CPUState where
  ram : List Int
  reg : List Int
  pc : Int
  fl : Int
  interrupts_active : Bool
  output : List String
  halted : Bool
  deriving DecidableEq, Repr

/-- Result of a Python statement: either the new state or a raised
exception together with the state at the moment of the raise. -/
abbrev PyResult := Except (CPUState × PyErr) CPUState

-- Python primitive semantics -------------------------------------------------

/-- Python list index resolution: `0 <= i < len` is used as is, an index in
`[-len, 0)` counts from the end, anything else is out of range. -/
def pyIdx (len : Nat) (i : Int) : Option Nat :=
  if 0 ≤ i ∧ i < (len : Int) then some i.toNat
  else if -(len : Int) ≤ i ∧ i < 0 then some (i + len).toNat
  else none

/-- Python list read `l[i]`. -/
def pyGet (l : List Int) (i : Int) : Except PyErr Int :=
  match pyIdx l.length i with
  | some n => .ok (l.getD n 0)
  | none => .error .indexError

/-- Python list write `l[i] = v`. -/
def pySet (l : List Int) (i : Int) (v : Int) : Except PyErr (List Int) :=
  match pyIdx l.length i with
  | some n => .ok (l.set n v)
  | none => .error .indexError

/-- Python bitwise and on unbounded integers (twos-complement on the
negatives: `Int.negSucc n` is the bitwise complement of `n`). -/
def pyAnd (a b : Int) : Int :=
  match a, b with
  | .ofNat x, .ofNat y => .ofNat (Nat.land x y)
  | .ofNat x, .negSucc y => .ofNat (x - Nat.land x y)
  | .negSucc x, .ofNat y => .ofNat (y - Nat.land y x)
  | .negSucc x, .negSucc y => .negSucc (Nat.lor x y)

/-- Python bitwise or on unbounded integers. -/
def pyOr (a b : Int) : Int :=
  match a, b with
  | .ofNat x, .ofNat y => .ofNat (Nat.lor x y)
  | .ofNat x, .negSucc y => .negSucc (y - Nat.land y x)
  | .negSucc x, .ofNat y => .negSucc (x - Nat.land x y)
  | .negSucc x, .negSucc y => .negSucc (Nat.land x y)

/-- Python bitwise xor on unbounded integers. -/
def pyXor (a b : Int) : Int :=
  match a, b with
  | .ofNat x, .ofNat y => .ofNat (Nat.xor x y)
  | .ofNat x, .negSucc y => .negSucc (Nat.xor x y)
  | .negSucc x, .ofNat y => .negSucc (Nat.xor x y)
  | .negSucc x, .negSucc y => .ofNat (Nat.xor x y)

/-- Python bitwise complement: `~x = -x - 1`. -/
def pyNot (x : Int) : Int := -x - 1

/-- Python right shift by a nonnegative amount: floor division by `2 ^ n`. -/
def pyShr (x : Int) (n : Nat) : Int := Int.fdiv x (2 ^ n)

-- State accessors mirroring the CPU methods ----------------------------------

/-- `self.ram_read(mar)` (cpu.py lines 75-76). -/
def ramRead (s : CPUState) (mar : Int) : Except (CPUState × PyErr) Int :=
  match pyGet s.ram mar with
  | .ok v => .ok v
  | .error e => .error (s, e)

/-- `self.ram_write(mdr, mar)` (cpu.py lines 78-79); returns the new ram. -/
def ramWrite (s : CPUState) (mdr mar : Int) : Except (CPUState × PyErr) (List Int) :=
  match pySet s.ram mar mdr with
  | .ok l => .ok l
  | .error e => .error (s, e)

/-- `self.reg[i]`. -/
def regRead (s : CPUState) (i : Int) : Except (CPUState × PyErr) Int :=
  match pyGet s.reg i with
  | .ok v => .ok v
  | .error e => .error (s, e)

/-- `self.reg[i] = v`; returns the new register list. -/
def regWrite (s : CPUState) (i v : Int) : Except (CPUState × PyErr) (List Int) :=
  match pySet s.reg i v with
  | .ok l => .ok l
  | .error e => .error (s, e)

namespace CPU

/-- `CPU.LDI` (cpu.py lines 146-147): `self.reg[reg_num] = value`. -/
def LDI (s : CPUState) (reg_num value : Int) : PyResult := do
  let reg1 ← regWrite s reg_num value
  .ok { s with reg := reg1 }

/-- `CPU.PRN` (cpu.py lines 149-150): `print(self.reg[reg_num])`. -/
def PRN (s : CPUState) (reg_num _b : Int) : PyResult := do
  let v ← regRead s reg_num
  .ok { s with output := s.output ++ [toString v] }

/-- `CPU.HLT` (cpu.py lines 152-153): `sys.exit()` ends the run loop. -/
def HLT (s : CPUState) (_a _b : Int) : PyResult :=
  .ok { s with halted := true }

/-- `CPU.POP` (cpu.py lines 155-158). -/
def POP (s : CPUState) (reg_num _b : Int) : PyResult := do
  let sp ← regRead s SP
  let value ← ramRead s sp
  let reg1 ← regWrite s reg_num value
  let s1 := { s with reg := reg1 }
  let sp1 ← regRead s1 SP
  let reg2 ← regWrite s1 SP (sp1 + 1)
  .ok { s1 with reg := reg2 }

/-- `CPU.PUSH` (cpu.py lines 160-163). -/
def PUSH (s : CPUState) (reg_num _b : Int) : PyResult := do
  let value ← regRead s reg_num
  let sp ← regRead s SP
  let reg1 ← regWrite s SP (sp - 1)
  let s1 := { s with reg := reg1 }
  let sp1 ← regRead s1 SP
  let ram1 ← ramWrite s1 value sp1
  .ok { s1 with ram := ram1 }

/-- `CPU.ALU_MUL` (cpu.py lines 165-166): `self.reg[reg_a] *= self.reg[reg_b]`.
No reduction modulo 256 is performed by the source. -/
def ALU_MUL (s : CPUState) (reg_a reg_b : Int) : PyResult := do
  let va ← regRead s reg_a
  let vb ← regRead s reg_b
  let reg1 ← regWrite s reg_a (va * vb)
  .ok { s with reg := reg1 }

/-- `CPU.ALU_ADD` (cpu.py lines 168-169): `self.reg[reg_a] += self.reg[reg_b]`.
No reduction modulo 256 is performed by the source. -/
def ALU_ADD (s : CPUState) (reg_a reg_b : Int) : PyResult := do
  let va ← regRead s reg_a
  let vb ← regRead s reg_b
  let reg1 ← regWrite s reg_a (va + vb)
  .ok { s with reg := reg1 }

/-- `CPU.ADDI` (cpu.py lines 171-172): `self.reg[reg_num] += immediate`. -/
def ADDI (s : CPUState) (reg_num immediate : Int) : PyResult := do
  let v ← regRead s reg_num
  let reg1 ← regWrite s reg_num (v + immediate)
  .ok { s with reg := reg1 }

/-- `CPU.ALU_CMP` (cpu.py lines 174-180): three-way if/elif/elif on the two
register values, each branch overwriting `self.fl` wholesale; with no
branch taken (impossible) the flags are left unchanged. -/
def ALU_CMP (s : CPUState) (reg_a reg_b : Int) : PyResult := do
  let va ← regRead s reg_a
  let vb ← regRead s reg_b
  if va = vb then .ok { s with fl := 1 }
  else if va < vb then .ok { s with fl := 0b100 }
  else if vb < va then .ok { s with fl := 0b10 }
  else .ok s

/-- `CPU.CALL` (cpu.py lines 182-186): decrement `reg[SP]`, write
`pc + 2` to ram at the new `reg[SP]`, then `pc = reg[reg_num]` (read from
the already-updated register list). -/
def CALL (s : CPUState) (reg_num _b : Int) : PyResult := do
  let sp ← regRead s SP
  let reg1 ← regWrite s SP (sp - 1)
  let s1 := { s with reg := reg1 }
  let return_address := s1.pc + 2
  let sp1 ← regRead s1 SP
  let ram1 ← ramWrite s1 return_address sp1
  let s2 := { s1 with ram := ram1 }
  let v ← regRead s2 reg_num
  .ok { s2 with pc := v }

/-- `CPU.RET` (cpu.py lines 188-190): `pc = ram[reg[SP]]` then
`reg[SP] += 1`. -/
def RET (s : CPUState) (_a _b : Int) : PyResult := do
  let sp ← regRead s SP
  let v ← ramRead s sp
  let s1 := { s with pc := v }
  let sp1 ← regRead s1 SP
  let reg1 ← regWrite s1 SP (sp1 + 1)
  .ok { s1 with reg := reg1 }

/-- `CPU.JMP` (cpu.py lines 192-193): `self.pc = self.reg[reg_num]`. -/
def JMP (s : CPUState) (reg_num _b : Int) : PyResult := do
  let v ← regRead s reg_num
  .ok { s with pc := v }

/-- `CPU.JNE` (cpu.py lines 195-199): jump when `self.fl & 1 == 0`,
otherwise `self.pc += 2`. -/
def JNE (s : CPUState) (reg_num b : Int) : PyResult :=
  if pyAnd s.fl 1 = 0 then JMP s reg_num b
  else .ok { s with pc := s.pc + 2 }

/-- `CPU.JEQ` (cpu.py lines 201-205): jump when `self.fl & 1` is truthy
(nonzero), otherwise `self.pc += 2`. -/
def JEQ (s : CPUState) (reg_num b : Int) : PyResult :=
  if pyAnd s.fl 1 = 0 then .ok { s with pc := s.pc + 2 }
  else JMP s reg_num b

/-- `CPU.IRET` (cpu.py lines 208-219).  Its first statement iterates
`self.handle_pop(i, _)` for `i = 6` down to `0`, but the class defines no
attribute `handle_pop` (only `POP` and `util_push` exist), so the very
first iteration raises `AttributeError` before any state is mutated; the
rest of the method body is unreachable. -/
def IRET (s : CPUState) (_a _b : Int) : PyResult :=
  .error (s, .attributeError nameHandlePop)

/-- `CPU.AND` (cpu.py lines 221-222): `self.reg[reg_a] &= self.reg[reg_b]`. -/
def AND (s : CPUState) (reg_a reg_b : Int) : PyResult := do
  let va ← regRead s reg_a
  let vb ← regRead s reg_b
  let reg1 ← regWrite s reg_a (pyAnd va vb)
  .ok { s with reg := reg1 }

/-- `CPU.NOT` (cpu.py lines 224-225): `self.reg[reg_num] = ~self.reg[reg_num]`. -/
def NOT (s : CPUState) (reg_num _b : Int) : PyResult := do
  let v ← regRead s reg_num
  let reg1 ← regWrite s reg_num (pyNot v)
  .ok { s with reg := reg1 }

/-- `CPU.OR` (cpu.py lines 227-228): `self.reg[reg_a] |= self.reg[reg_b]`. -/
def OR (s : CPUState) (reg_a reg_b : Int) : PyResult := do
  let va ← regRead s reg_a
  let vb ← regRead s reg_b
  let reg1 ← regWrite s reg_a (pyOr va vb)
  .ok { s with reg := reg1 }

/-- `CPU.SHL` (cpu.py lines 230-231): `self.reg[reg_a] <<= self.reg[reg_b]`;
a negative shift amount raises `ValueError` in Python. -/
def SHL (s : CPUState) (reg_a reg_b : Int) : PyResult := do
  let va ← regRead s reg_a
  let vb ← regRead s reg_b
  if vb < 0 then .error (s, .valueError)
  else do
    let reg1 ← regWrite s reg_a (va * 2 ^ vb.toNat)
    .ok { s with reg := reg1 }

/-- `CPU.SHR` (cpu.py lines 233-234): `self.reg[reg_a] >>= self.reg[reg_b]`;
a negative shift amount raises `ValueError` in Python. -/
def SHR (s : CPUState) (reg_a reg_b : Int) : PyResult := do
  let va ← regRead s reg_a
  let vb ← regRead s reg_b
  if vb < 0 then .error (s, .valueError)
  else do
    let reg1 ← regWrite s reg_a (pyShr va vb.toNat)
    .ok { s with reg := reg1 }

/-- `CPU.XOR` (cpu.py lines 236-237): `self.reg[reg_a] ^= self.reg[reg_b]`. -/
def XOR (s : CPUState) (reg_a reg_b : Int) : PyResult := do
  let va ← regRead s reg_a
  let vb ← regRead s reg_b
  let reg1 ← regWrite s reg_a (pyXor va vb)
  .ok { s with reg := reg1 }

/-- `CPU.MOD` (cpu.py lines 239-244).  When the divisor register is zero
the handler prints an error line and then calls `self.handle_hlt()`; the
class defines no attribute `handle_hlt` (the halt handler is named `HLT`),
so this call raises `AttributeError` after the print.  Otherwise
`self.reg[reg_a] %= self.reg[reg_b]` with Python floor-mod semantics. -/
def MOD (s : CPUState) (reg_a reg_b : Int) : PyResult := do
  let vb ← regRead s reg_b
  if vb = 0 then
    .error ({ s with output := s.output ++ [divideByZeroMsg] },
            .attributeError nameHandleHlt)
  else do
    let va ← regRead s reg_a
    let reg1 ← regWrite s reg_a (Int.fmod va vb)
    .ok { s with reg := reg1 }

/-- `CPU.util_push` (cpu.py lines 260-262): decrement `reg[SP]`, then write
the value to ram at the new `reg[SP]`. -/
def util_push (s : CPUState) (value : Int) : PyResult := do
  let sp ← regRead s SP
  let reg1 ← regWrite s SP (sp - 1)
  let s1 := { s with reg := reg1 }
  let sp1 ← regRead s1 SP
  let ram1 ← ramWrite s1 value sp1
  .ok { s1 with ram := ram1 }

/-- `CPU.check_interrupts` (cpu.py lines 264-282).  When
`self.interrupts_active` holds, the first statement of the guarded block
is `masked = self.reg[IM] & self.reg[IS]`; the module defines `SP` and
`IM` but never defines `IS`, so evaluating `IS` raises `NameError` before
any other effect.  The rest of the block (clearing the pending register,
the state-saving pushes via the likewise-undefined `self.helper_push`, and
the vector fetch) is unreachable.  When interrupts are inactive the method
does nothing. -/
def check_interrupts (s : CPUState) : PyResult :=
  if s.interrupts_active then .error (s, .nameError nameIS)
  else .ok s

end CPU

/-- `self.branch_table` (cpu.py lines 48-71): opcode-to-handler dispatch;
a missing key raises `KeyError`. -/
def branch_table (ir : Int) (s : CPUState) (a b : Int) : PyResult :=
  if ir = HLT then CPU.HLT s a b
  else if ir = LDI then CPU.LDI s a b
  else if ir = PRN then CPU.PRN s a b
  else if ir = MUL then CPU.ALU_MUL s a b
  else if ir = PUSH then CPU.PUSH s a b
  else if ir = POP then CPU.POP s a b
  else if ir = CALL then CPU.CALL s a b
  else if ir = RET then CPU.RET s a b
  else if ir = IRET then CPU.IRET s a b
  else if ir = ADD then CPU.ALU_ADD s a b
  else if ir = JMP then CPU.JMP s a b
  else if ir = JNE then CPU.JNE s a b
  else if ir = JEQ then CPU.JEQ s a b
  else if ir = CMP then CPU.ALU_CMP s a b
  else if ir = AND then CPU.AND s a b
  else if ir = OR then CPU.OR s a b
  else if ir = XOR then CPU.XOR s a b
  else if ir = SHL then CPU.SHL s a b
  else if ir = SHR then CPU.SHR s a b
  else if ir = MOD then CPU.MOD s a b
  else if ir = NOT then CPU.NOT s a b
  else if ir = ADDI then CPU.ADDI s a b
  else .error (s, .keyError)

namespace CPU

/-- One iteration of the `while True` body of `CPU.run` (cpu.py lines
129-144), with the excluded host-polling collaborators omitted: interrupt
check, fetch of the opcode and the two following cells, decode of operand
count and the set-pc bit, dispatch, then conditional advance of `pc`.
A `sys.exit()` raised by `HLT` propagates, so no advance happens after it;
this is modelled by the `halted` test. -/
def step (s : CPUState) : PyResult := do
  let s0 ← check_interrupts s
  let ir ← ramRead s0 s0.pc
  let operand_a ← ramRead s0 (s0.pc + 1)
  let operand_b ← ramRead s0 (s0.pc + 2)
  let operand_count := pyShr ir 6
  let instruction_length := operand_count + 1
  let set_pc := pyAnd (pyShr ir 4) 0b0001
  let s1 ← branch_table ir s0 operand_a operand_b
  if s1.halted then .ok s1
  else if set_pc = 0 then .ok { s1 with pc := s1.pc + instruction_length }
  else .ok s1

/-- `CPU.run` (cpu.py lines 127-144) with explicit fuel: iterate `step`
until halt (or until the fuel runs out, which no theorem below relies
on). -/
def run (fuel : Nat) (s : CPUState) : PyResult :=
  match fuel with
  | 0 => .ok s
  | Nat.succ n => do
      let s1 ← step s
      if s1.halted then .ok s1
      else run n s1

end CPU

/-- A freshly constructed `CPU` (cpu.py lines 41-73) whose memory holds the
given program starting at address 0, as `CPU.load` writes it. -/
def initCPU (program : List Int) : CPUState :=
  { ram := program ++ List.replicate (256 - program.length) 0
    reg := [0, 0, 0, 0, 0, 0, 0, 0xF4]
    pc := 0
    fl := 0
    interrupts_active := true
    output := []
    halted := false }

/-- The five-instruction program of the C4 scenario:
LDI R0,5; LDI R1,3; MUL R0,R1; PRN R0; HLT. -/
def c4program : List Int :=
  [0b10000010, 0, 5, 0b10000010, 1, 3, 0b10100010, 0, 1, 0b01000111, 0,
   0b00000001]

-- Concrete states used by the closed theorems and witnesses below.

/-- A fresh machine with the interrupt mask register (R5) set to 1 and a
pending bit in R6, the situation in which an interrupt dispatch is due. -/
def c1state : CPUState := { initCPU [] with reg := [0, 0, 0, 0, 0, 1, 1, 0xF4] }

/-- A fresh machine with registers R0 and R1 both holding 200. -/
def c2state : CPUState := { initCPU [] with reg := [200, 200, 0, 0, 0, 0, 0, 0xF4] }

/-- A fresh machine with R0 = 10 and R1 = 0 (zero divisor for MOD). -/
def c5state : CPUState := { initCPU [] with reg := [10, 0, 0, 0, 0, 0, 0, 0xF4] }

/-- A fresh machine (stack pointer at its initial value 244). -/
def c7state : CPUState := initCPU []

/-- A fresh machine whose stack pointer register R7 has been driven down to
0 (a full stack) and with R0 = 99. -/
def c8state : CPUState := { initCPU [] with reg := [99, 0, 0, 0, 0, 0, 0, 0] }

/-- A fresh machine whose stack pointer register R7 has been driven up to
256 (one past the last memory cell, as after popping an empty stack). -/
def c8popState : CPUState := { initCPU [] with reg := [0, 0, 0, 0, 0, 0, 0, 256] }

/-- A fresh machine about to execute the instruction at address 254. -/
def c10state : CPUState := { initCPU [] with pc := 254 }

/-- A machine at address 254 whose interrupts are inactive, so that a step
reaches the fetch. -/
def c10inactive : CPUState := { initCPU [] with interrupts_active := false, pc := 254 }

-- Helper lemmas --------------------------------------------------------------

theorem ok_bind {ε α β : Type} (a : α) (f : α → Except ε β) :
    (Except.ok a : Except ε α) >>= f = f a := rfl

theorem error_bind {ε α β : Type} (e : ε) (f : α → Except ε β) :
    (Except.error e : Except ε α) >>= f = Except.error e := rfl

theorem pyIdx_pos {len : Nat} {i : Int} (h0 : 0 ≤ i) (h : i < (len : Int)) :
    pyIdx len i = some i.toNat := by
  unfold pyIdx
  rw [if_pos ⟨h0, h⟩]

theorem pyIdx_neg {len : Nat} {i : Int} (h0 : -(len : Int) ≤ i) (h : i < 0) :
    pyIdx len i = some (i + len).toNat := by
  unfold pyIdx
  rw [if_neg (by omega), if_pos ⟨h0, h⟩]

theorem pyIdx_none {len : Nat} {i : Int} (h : (len : Int) ≤ i) :
    pyIdx len i = none := by
  unfold pyIdx
  rw [if_neg (by omega), if_neg (by omega)]

theorem regRead_ok (s : CPUState) (i : Int) (h0 : 0 ≤ i)
    (h : i < (s.reg.length : Int)) :
    regRead s i = .ok (s.reg.getD i.toNat 0) := by
  unfold regRead pyGet
  rw [pyIdx_pos h0 h]

theorem regWrite_ok (s : CPUState) (i v : Int) (h0 : 0 ≤ i)
    (h : i < (s.reg.length : Int)) :
    regWrite s i v = .ok (s.reg.set i.toNat v) := by
  unfold regWrite pySet
  rw [pyIdx_pos h0 h]

theorem ramRead_ok (s : CPUState) (i : Int) (h0 : 0 ≤ i)
    (h : i < (s.ram.length : Int)) :
    ramRead s i = .ok (s.ram.getD i.toNat 0) := by
  unfold ramRead pyGet
  rw [pyIdx_pos h0 h]

theorem ramRead_oob (s : CPUState) (i : Int) (h : (s.ram.length : Int) ≤ i) :
    ramRead s i = .error (s, .indexError) := by
  unfold ramRead pyGet
  rw [pyIdx_none h]

theorem ramWrite_ok (s : CPUState) (v i : Int) (h0 : 0 ≤ i)
    (h : i < (s.ram.length : Int)) :
    ramWrite s v i = .ok (s.ram.set i.toNat v) := by
  unfold ramWrite pySet
  rw [pyIdx_pos h0 h]

theorem ramWrite_neg (s : CPUState) (v i : Int) (h0 : -(s.ram.length : Int) ≤ i)
    (h : i < 0) :
    ramWrite s v i = .ok (s.ram.set (i + s.ram.length).toNat v) := by
  unfold ramWrite pySet
  rw [pyIdx_neg h0 h]

theorem getD_set_self : ∀ (l : List Int) (n : Nat) (v : Int), n < l.length →
    (l.set n v).getD n 0 = v := by
  intro l
  induction l with
  | nil => intro n v h; simp at h
  | cons a t ih =>
      intro n v h
      cases n with
      | zero => rfl
      | succ m => simpa using ih m v (by simpa using h)

theorem getD_set_ne : ∀ (l : List Int) (m n : Nat) (v : Int), m ≠ n →
    (l.set m v).getD n 0 = l.getD n 0 := by
  intro l
  induction l with
  | nil => intro m n v _; simp
  | cons a t ih =>
      intro m n v h
      cases m with
      | zero =>
          cases n with
          | zero => exact absurd rfl h
          | succ k => rfl
      | succ j =>
          cases n with
          | zero => rfl
          | succ k => simpa using ih j k v (by omega)

theorem set_getD_self : ∀ (l : List Int) (n : Nat), n < l.length →
    l.set n (l.getD n 0) = l := by
  intro l
  induction l with
  | nil => intro n h; simp at h
  | cons a t ih =>
      intro n h
      cases n with
      | zero => rfl
      | succ m => simpa using ih m (by simpa using h)

-- Claim theorems -------------------------------------------------------------

set_option maxRecDepth 100000

/-- C1: the claim says interrupt dispatch followed by return-from-interrupt
restores registers 0-6, the flags and the program counter and re-enables
interrupts.  On the code this round trip can never happen: with interrupts
active, `check_interrupts` raises `NameError` on the undefined constant
`IS` before dispatching anything, and the `IRET` handler raises
`AttributeError` on the undefined attribute `handle_pop` before restoring
anything.  This theorem evaluates both methods at a state with a pending,
unmasked interrupt. -/
theorem c1_interrupt_machinery_crashes :
    CPU.check_interrupts c1state = .error (c1state, .nameError nameIS) ∧
    CPU.IRET c1state 0 0 = .error (c1state, .attributeError nameHandlePop) :=
  ⟨rfl, rfl⟩

/-- C2: the claim says every ALU handler reduces its result modulo 256.
The `ALU_ADD` handler stores the raw sum: adding registers holding 200 and
200 leaves 400 in the destination register, not 400 mod 256 = 144. -/
theorem c2_alu_add_does_not_wrap :
    CPU.ALU_ADD c2state 0 1 =
      .ok { c2state with reg := [400, 200, 0, 0, 0, 0, 0, 0xF4] } ∧
    (400 : Int) ≠ (200 + 200) % 256 :=
  ⟨rfl, by decide⟩

/-- C4: the claim says the five-instruction program prints 15 and halts.
Running the freshly constructed machine instead raises `NameError` on the
undefined constant `IS` in `check_interrupts` before the first instruction
is fetched, with nothing printed; the same machine with the interrupt
check disarmed (interrupts inactive) does print exactly the line 15 and
halt, showing the crash is the only obstacle. -/
theorem c4_run_crashes_before_any_output :
    CPU.run 6 (initCPU c4program) =
      .error (initCPU c4program, .nameError nameIS) ∧
    (CPU.run 6 { initCPU c4program with interrupts_active := false }).map
        (fun t => (t.output, t.halted)) = .ok ([toString (15 : Int)], true) :=
  ⟨rfl, rfl⟩

/-- C5: the claim says MOD with a zero divisor reports the error and then
performs the same halt transition as the explicit halt instruction.  The
handler does print the report, but then calls the undefined attribute
`handle_hlt`, raising `AttributeError` instead of the `HLT` transition
(`sys.exit`); the destination register is left unchanged in the carried
state. -/
theorem c5_mod_zero_reports_then_crashes :
    CPU.MOD c5state 0 1 =
      .error ({ c5state with output := [divideByZeroMsg] },
              .attributeError nameHandleHlt) :=
  rfl

/-- C7 counterexample: pushing register 7 (the stack pointer itself) and
popping back into it does not restore it: starting from stack pointer 244
(strictly between 0 and 256) the round trip leaves register 7 holding 245. -/
theorem c7_push_pop_sp_register_counterexample :
    (CPU.PUSH c7state 7 0 >>= fun t => CPU.POP t 7 0) =
      .ok { c7state with reg := [0, 0, 0, 0, 0, 0, 0, 245],
                         ram := c7state.ram.set 243 244 } ∧
    (245 : Int) ≠ 244 :=
  ⟨rfl, by decide⟩

/-- C8 counterexample: pushing with the stack pointer already at 0 is not a
reported failure: the write at index -1 silently lands in memory cell 255
(the interrupt-vector area) through Python negative indexing, and the
stack pointer continues to -1. -/
theorem c8_push_overflow_is_silent :
    CPU.PUSH c8state 0 0 =
      .ok { c8state with reg := [99, 0, 0, 0, 0, 0, 0, -1],
                         ram := c8state.ram.set 255 99 } :=
  rfl

/-- C10 counterexample: with interrupts active (as on a freshly constructed
machine) a step at program counter 254 does not read the operand cells and
does not fail out of bounds: it raises `NameError` in the interrupt check
before any memory access. -/
theorem c10_step_at_254_is_not_oob :
    CPU.step c10state = .error (c10state, .nameError nameIS) ∧
    PyErr.nameError nameIS ≠ PyErr.indexError :=
  ⟨rfl, by decide⟩

theorem pyAnd_one_cases (x : Int) : pyAnd x 1 = 0 ∨ pyAnd x 1 = 1 := by
  rcases x with n | n
  · show Int.ofNat (Nat.land n 1) = 0 ∨ Int.ofNat (Nat.land n 1) = 1
    have h2 : Nat.land n 1 = n % 2 := Nat.and_one_is_mod n
    rw [h2]
    rcases Nat.mod_two_eq_zero_or_one n with h | h <;> rw [h]
    · exact Or.inl rfl
    · exact Or.inr rfl
  · show Int.ofNat (1 - Nat.land 1 n) = 0 ∨ Int.ofNat (1 - Nat.land 1 n) = 1
    have h3 : Nat.land 1 n = Nat.land n 1 := Nat.land_comm 1 n
    have h2 : Nat.land n 1 = n % 2 := Nat.and_one_is_mod n
    rw [h3, h2]
    rcases Nat.mod_two_eq_zero_or_one n with h | h <;> rw [h]
    · exact Or.inr rfl
    · exact Or.inl rfl

/-- C3: `JEQ` and `JNE` depend on the flags only through the equal bit
`fl & 1`: that bit is always 0 or 1; when it is 1, `JEQ` jumps to the
address held in the named register and `JNE` advances the program counter
by the instruction length 2; when it is 0, `JNE` jumps and `JEQ` advances
by 2. -/
theorem c3_jeq_jne_read_equal_bit (s : CPUState) (r b : Int)
    (hlen : s.reg.length = 8) (hr0 : 0 ≤ r) (hr : r < 8) :
    (pyAnd s.fl 1 = 0 ∨ pyAnd s.fl 1 = 1) ∧
    (pyAnd s.fl 1 = 1 →
      CPU.JEQ s r b = .ok { s with pc := s.reg.getD r.toNat 0 } ∧
      CPU.JNE s r b = .ok { s with pc := s.pc + 2 }) ∧
    (pyAnd s.fl 1 = 0 →
      CPU.JNE s r b = .ok { s with pc := s.reg.getD r.toNat 0 } ∧
      CPU.JEQ s r b = .ok { s with pc := s.pc + 2 }) := by
  have hrI : r < (s.reg.length : Int) := by rw [hlen]; exact_mod_cast hr
  have hjmp : CPU.JMP s r b = .ok { s with pc := s.reg.getD r.toNat 0 } := by
    unfold CPU.JMP
    rw [regRead_ok s r hr0 hrI]
    rfl
  refine ⟨pyAnd_one_cases s.fl, fun h1 => ⟨?_, ?_⟩, fun h0 => ⟨?_, ?_⟩⟩
  · unfold CPU.JEQ
    rw [if_neg (by rw [h1]; norm_num)]
    exact hjmp
  · unfold CPU.JNE
    rw [if_neg (by rw [h1]; norm_num)]
  · unfold CPU.JNE
    rw [if_pos h0]
    exact hjmp
  · unfold CPU.JEQ
    rw [if_pos h0]

/-- Witness for C3 at a fresh machine (flags 0), register 0. -/
theorem c3_jeq_jne_read_equal_bit_witness :
    ((initCPU []).reg.length = 8 ∧ (0 : Int) ≤ 0 ∧ (0 : Int) < 8) ∧
    ((pyAnd (initCPU []).fl 1 = 0 ∨ pyAnd (initCPU []).fl 1 = 1) ∧
    (pyAnd (initCPU []).fl 1 = 1 →
      CPU.JEQ (initCPU []) 0 0 =
        .ok { initCPU [] with pc := (initCPU []).reg.getD (0 : Int).toNat 0 } ∧
      CPU.JNE (initCPU []) 0 0 = .ok { initCPU [] with pc := (initCPU []).pc + 2 }) ∧
    (pyAnd (initCPU []).fl 1 = 0 →
      CPU.JNE (initCPU []) 0 0 =
        .ok { initCPU [] with pc := (initCPU []).reg.getD (0 : Int).toNat 0 } ∧
      CPU.JEQ (initCPU []) 0 0 = .ok { initCPU [] with pc := (initCPU []).pc + 2 })) :=
  ⟨⟨rfl, by decide, by decide⟩,
   c3_jeq_jne_read_equal_bit (initCPU []) 0 0 rfl (by decide) (by decide)⟩

/-- C9: compare reads the two named registers and replaces the whole flags
value with exactly one of 1 (equal), 4 (less-than) or 2 (greater-than),
each set exactly in the corresponding ordering case, with the other two
bits (and all higher bits) cleared; no register is mutated. -/
theorem c9_alu_cmp_exclusive_flags (s : CPUState) (a b : Int)
    (hlen : s.reg.length = 8) (ha0 : 0 ≤ a) (ha : a < 8)
    (hb0 : 0 ≤ b) (hb : b < 8) :
    ∃ fl1, CPU.ALU_CMP s a b = .ok { s with fl := fl1 } ∧
      (fl1 = 1 ∨ fl1 = 2 ∨ fl1 = 4) ∧
      (fl1 = 1 ↔ s.reg.getD a.toNat 0 = s.reg.getD b.toNat 0) ∧
      (fl1 = 4 ↔ s.reg.getD a.toNat 0 < s.reg.getD b.toNat 0) ∧
      (fl1 = 2 ↔ s.reg.getD b.toNat 0 < s.reg.getD a.toNat 0) := by
  have haI : a < (s.reg.length : Int) := by rw [hlen]; exact_mod_cast ha
  have hbI : b < (s.reg.length : Int) := by rw [hlen]; exact_mod_cast hb
  have hc : CPU.ALU_CMP s a b =
      (if s.reg.getD a.toNat 0 = s.reg.getD b.toNat 0 then .ok { s with fl := 1 }
       else if s.reg.getD a.toNat 0 < s.reg.getD b.toNat 0 then .ok { s with fl := 4 }
       else if s.reg.getD b.toNat 0 < s.reg.getD a.toNat 0 then .ok { s with fl := 2 }
       else .ok s) := by
    unfold CPU.ALU_CMP
    rw [regRead_ok s a ha0 haI, regRead_ok s b hb0 hbI]
    rfl
  rcases lt_trichotomy (s.reg.getD a.toNat 0) (s.reg.getD b.toNat 0) with h | h | h
  · refine ⟨4, ?_, by omega, by omega, by omega, by omega⟩
    rw [hc, if_neg (by omega), if_pos h]
  · refine ⟨1, ?_, by omega, by omega, by omega, by omega⟩
    rw [hc, if_pos h]
  · refine ⟨2, ?_, by omega, by omega, by omega, by omega⟩
    rw [hc, if_neg (by omega), if_neg (by omega), if_pos h]

/-- Witness for C9 at a fresh machine (both registers hold 0). -/
theorem c9_alu_cmp_exclusive_flags_witness :
    ((initCPU []).reg.length = 8 ∧ (0 : Int) ≤ 0 ∧ (0 : Int) < 8 ∧
      (0 : Int) ≤ 1 ∧ (1 : Int) < 8) ∧
    (∃ fl1, CPU.ALU_CMP (initCPU []) 0 1 = .ok { initCPU [] with fl := fl1 } ∧
      (fl1 = 1 ∨ fl1 = 2 ∨ fl1 = 4) ∧
      (fl1 = 1 ↔ (initCPU []).reg.getD (0 : Int).toNat 0 =
                  (initCPU []).reg.getD (1 : Int).toNat 0) ∧
      (fl1 = 4 ↔ (initCPU []).reg.getD (0 : Int).toNat 0 <
                  (initCPU []).reg.getD (1 : Int).toNat 0) ∧
      (fl1 = 2 ↔ (initCPU []).reg.getD (1 : Int).toNat 0 <
                  (initCPU []).reg.getD (0 : Int).toNat 0)) :=
  ⟨⟨rfl, by decide, by decide, by decide, by decide⟩,
   c9_alu_cmp_exclusive_flags (initCPU []) 0 1 rfl (by decide) (by decide)
     (by decide) (by decide)⟩

/-- C10 amended: a step only reaches the fetch when the interrupt check
passes, which requires interrupts to be inactive (otherwise the check
raises `NameError` on the undefined `IS`); in that case the loop does read
the cells at pc + 1 and pc + 2 before decoding, so any instruction located
at program counter 254 or 255 makes the step fail with `IndexError` on a
memory index of 256 or greater instead of executing. -/
theorem c10_fetch_oob_when_interrupts_inactive (s : CPUState)
    (hia : s.interrupts_active = false)
    (hram : s.ram.length = 256)
    (hpc : s.pc = 254 ∨ s.pc = 255) :
    CPU.step s = .error (s, .indexError) := by
  have hchk : CPU.check_interrupts s = .ok s := by
    unfold CPU.check_interrupts
    rw [hia]
    rfl
  rcases hpc with h | h
  · unfold CPU.step
    rw [hchk]
    simp only [ok_bind]
    rw [ramRead_ok s s.pc (by omega) (by rw [hram]; omega)]
    simp only [ok_bind]
    rw [ramRead_ok s (s.pc + 1) (by omega) (by rw [hram]; omega)]
    simp only [ok_bind]
    rw [ramRead_oob s (s.pc + 2) (by rw [hram]; omega)]
    rfl
  · unfold CPU.step
    rw [hchk]
    simp only [ok_bind]
    rw [ramRead_ok s s.pc (by omega) (by rw [hram]; omega)]
    simp only [ok_bind]
    rw [ramRead_oob s (s.pc + 1) (by rw [hram]; omega)]
    rfl

/-- Witness for the amended C10 at a machine with inactive interrupts and
program counter 254. -/
theorem c10_fetch_oob_when_interrupts_inactive_witness :
    (c10inactive.interrupts_active = false ∧ c10inactive.ram.length = 256 ∧
      (c10inactive.pc = 254 ∨ c10inactive.pc = 255)) ∧
    CPU.step c10inactive = .error (c10inactive, .indexError) :=
  ⟨⟨rfl, rfl, Or.inl rfl⟩,
   c10_fetch_oob_when_interrupts_inactive c10inactive rfl rfl (Or.inl rfl)⟩

theorem int_toNat_seven : (7 : Int).toNat = 7 := rfl

theorem PUSH_spec (s : CPUState) (r : Int)
    (hlen : s.reg.length = 8) (hram : s.ram.length = 256)
    (hr0 : 0 ≤ r) (hr : r < 8)
    (hsp0 : 0 < s.reg.getD 7 0) (hsp1 : s.reg.getD 7 0 ≤ 256) :
    CPU.PUSH s r 0 = .ok
      { s with reg := s.reg.set 7 (s.reg.getD 7 0 - 1),
               ram := s.ram.set (s.reg.getD 7 0 - 1).toNat (s.reg.getD r.toNat 0) } := by
  have hrI : r < (s.reg.length : Int) := by rw [hlen]; exact_mod_cast hr
  have h70 : (0 : Int) ≤ 7 := by norm_num
  have h7I : (7 : Int) < (s.reg.length : Int) := by rw [hlen]; norm_num
  unfold CPU.PUSH
  simp only [SP]
  rw [regRead_ok s r hr0 hrI]
  simp only [ok_bind]
  rw [regRead_ok s 7 h70 h7I]
  simp only [ok_bind, int_toNat_seven]
  rw [regWrite_ok s 7 (s.reg.getD 7 0 - 1) h70 h7I]
  simp only [ok_bind, int_toNat_seven]
  rw [regRead_ok { s with reg := s.reg.set 7 (s.reg.getD 7 0 - 1) } 7 h70
      (by show (7 : Int) < ((s.reg.set 7 (s.reg.getD 7 0 - 1)).length : Int)
          rw [List.length_set, hlen]; norm_num)]
  simp only [ok_bind, int_toNat_seven]
  rw [getD_set_self s.reg 7 (s.reg.getD 7 0 - 1) (by rw [hlen]; norm_num)]
  rw [ramWrite_ok { s with reg := s.reg.set 7 (s.reg.getD 7 0 - 1) }
      (s.reg.getD r.toNat 0) (s.reg.getD 7 0 - 1) (by omega)
      (by show (s.reg.getD 7 0 - 1) < (s.ram.length : Int)
          rw [hram]; omega)]
  simp only [ok_bind]

theorem POP_spec (s : CPUState) (r : Int)
    (hlen : s.reg.length = 8) (hram : s.ram.length = 256)
    (hr0 : 0 ≤ r) (hr : r < 8)
    (hsp0 : 0 ≤ s.reg.getD 7 0) (hsp1 : s.reg.getD 7 0 < 256) :
    CPU.POP s r 0 = .ok
      { s with reg := ((s.reg.set r.toNat (s.ram.getD (s.reg.getD 7 0).toNat 0)).set 7
          ((s.reg.set r.toNat (s.ram.getD (s.reg.getD 7 0).toNat 0)).getD 7 0 + 1)) } := by
  have hrI : r < (s.reg.length : Int) := by rw [hlen]; exact_mod_cast hr
  have h70 : (0 : Int) ≤ 7 := by norm_num
  have h7I : (7 : Int) < (s.reg.length : Int) := by rw [hlen]; norm_num
  unfold CPU.POP
  simp only [SP]
  rw [regRead_ok s 7 h70 h7I]
  simp only [ok_bind, int_toNat_seven]
  rw [ramRead_ok s (s.reg.getD 7 0) hsp0 (by rw [hram]; exact_mod_cast hsp1)]
  simp only [ok_bind]
  rw [regWrite_ok s r (s.ram.getD (s.reg.getD 7 0).toNat 0) hr0 hrI]
  simp only [ok_bind]
  rw [regRead_ok
      { s with reg := s.reg.set r.toNat (s.ram.getD (s.reg.getD 7 0).toNat 0) } 7 h70
      (by show (7 : Int) <
            ((s.reg.set r.toNat (s.ram.getD (s.reg.getD 7 0).toNat 0)).length : Int)
          rw [List.length_set, hlen]; norm_num)]
  simp only [ok_bind, int_toNat_seven]
  rw [regWrite_ok
      { s with reg := s.reg.set r.toNat (s.ram.getD (s.reg.getD 7 0).toNat 0) } 7
      ((s.reg.set r.toNat (s.ram.getD (s.reg.getD 7 0).toNat 0)).getD 7 0 + 1) h70
      (by show (7 : Int) <
            ((s.reg.set r.toNat (s.ram.getD (s.reg.getD 7 0).toNat 0)).length : Int)
          rw [List.length_set, hlen]; norm_num)]
  simp only [ok_bind, int_toNat_seven]

theorem RET_spec (s : CPUState)
    (hlen : s.reg.length = 8) (hram : s.ram.length = 256)
    (hsp0 : 0 ≤ s.reg.getD 7 0) (hsp1 : s.reg.getD 7 0 < 256) :
    CPU.RET s 0 0 = .ok
      { s with pc := s.ram.getD (s.reg.getD 7 0).toNat 0,
               reg := s.reg.set 7 (s.reg.getD 7 0 + 1) } := by
  have h70 : (0 : Int) ≤ 7 := by norm_num
  have h7I : (7 : Int) < (s.reg.length : Int) := by rw [hlen]; norm_num
  unfold CPU.RET
  simp only [SP]
  rw [regRead_ok s 7 h70 h7I]
  simp only [ok_bind, int_toNat_seven]
  rw [ramRead_ok s (s.reg.getD 7 0) hsp0 (by rw [hram]; exact_mod_cast hsp1)]
  simp only [ok_bind]
  rw [regRead_ok { s with pc := s.ram.getD (s.reg.getD 7 0).toNat 0 } 7 h70
      (by show (7 : Int) < (s.reg.length : Int); exact h7I)]
  simp only [ok_bind, int_toNat_seven]
  rw [regWrite_ok { s with pc := s.ram.getD (s.reg.getD 7 0).toNat 0 } 7
      (s.reg.getD 7 0 + 1) h70
      (by show (7 : Int) < (s.reg.length : Int); exact h7I)]
  simp only [ok_bind, int_toNat_seven]

theorem CALL_spec (s : CPUState) (r : Int)
    (hlen : s.reg.length = 8) (hram : s.ram.length = 256)
    (hr0 : 0 ≤ r) (hr : r < 8)
    (hsp0 : 1 ≤ s.reg.getD 7 0) (hsp1 : s.reg.getD 7 0 ≤ 256) :
    CPU.CALL s r 0 = .ok
      { s with reg := s.reg.set 7 (s.reg.getD 7 0 - 1),
               ram := s.ram.set (s.reg.getD 7 0 - 1).toNat (s.pc + 2),
               pc := (s.reg.set 7 (s.reg.getD 7 0 - 1)).getD r.toNat 0 } := by
  have hrI : r < (s.reg.length : Int) := by rw [hlen]; exact_mod_cast hr
  have h70 : (0 : Int) ≤ 7 := by norm_num
  have h7I : (7 : Int) < (s.reg.length : Int) := by rw [hlen]; norm_num
  unfold CPU.CALL
  simp only [SP]
  rw [regRead_ok s 7 h70 h7I]
  simp only [ok_bind, int_toNat_seven]
  rw [regWrite_ok s 7 (s.reg.getD 7 0 - 1) h70 h7I]
  simp only [ok_bind, int_toNat_seven]
  rw [regRead_ok { s with reg := s.reg.set 7 (s.reg.getD 7 0 - 1) } 7 h70
      (by show (7 : Int) < ((s.reg.set 7 (s.reg.getD 7 0 - 1)).length : Int)
          rw [List.length_set, hlen]; norm_num)]
  simp only [ok_bind, int_toNat_seven]
  rw [getD_set_self s.reg 7 (s.reg.getD 7 0 - 1) (by rw [hlen]; norm_num)]
  rw [ramWrite_ok { s with reg := s.reg.set 7 (s.reg.getD 7 0 - 1) } (s.pc + 2)
      (s.reg.getD 7 0 - 1) (by omega)
      (by show (s.reg.getD 7 0 - 1) < (s.ram.length : Int); rw [hram]; omega)]
  simp only [ok_bind]
  rw [regRead_ok
      { s with reg := s.reg.set 7 (s.reg.getD 7 0 - 1),
               ram := s.ram.set (s.reg.getD 7 0 - 1).toNat (s.pc + 2) } r hr0
      (by show r < ((s.reg.set 7 (s.reg.getD 7 0 - 1)).length : Int)
          rw [List.length_set]; exact hrI)]
  simp only [ok_bind]

/-- C7 amended: push-then-pop on the same register is a round trip for the
general-purpose registers 0-6 (with stack pointer strictly between 0 and
256): the whole register file is restored (in particular the pushed
register and the stack pointer), only the memory cell below the old stack
top having been overwritten.  For register 7, the stack pointer itself,
the law fails (see the counterexample). -/
theorem c7_push_pop_roundtrip_gp (s : CPUState) (r : Int)
    (hlen : s.reg.length = 8) (hram : s.ram.length = 256)
    (hr0 : 0 ≤ r) (hr : r < 7)
    (hsp0 : 0 < s.reg.getD 7 0) (hsp1 : s.reg.getD 7 0 < 256) :
    (CPU.PUSH s r 0 >>= fun t => CPU.POP t r 0) =
      .ok { s with ram := s.ram.set (s.reg.getD 7 0 - 1).toNat (s.reg.getD r.toNat 0) } := by
  have h7r : r.toNat ≠ 7 := by omega
  have hlen7 : (7 : Nat) < s.reg.length := by rw [hlen]; norm_num
  have hgds : (s.reg.set 7 (s.reg.getD 7 0 - 1)).getD 7 0 = s.reg.getD 7 0 - 1 :=
    getD_set_self s.reg 7 (s.reg.getD 7 0 - 1) hlen7
  rw [PUSH_spec s r hlen hram hr0 (by omega) hsp0 (by omega)]
  simp only [ok_bind]
  rw [POP_spec
      { s with reg := s.reg.set 7 (s.reg.getD 7 0 - 1),
               ram := s.ram.set (s.reg.getD 7 0 - 1).toNat (s.reg.getD r.toNat 0) } r
      (by show (s.reg.set 7 (s.reg.getD 7 0 - 1)).length = 8
          rw [List.length_set, hlen])
      (by show (s.ram.set (s.reg.getD 7 0 - 1).toNat (s.reg.getD r.toNat 0)).length = 256
          rw [List.length_set, hram])
      hr0 (by omega)
      (by show (0 : Int) ≤ (s.reg.set 7 (s.reg.getD 7 0 - 1)).getD 7 0
          rw [hgds]; omega)
      (by show (s.reg.set 7 (s.reg.getD 7 0 - 1)).getD 7 0 < 256
          rw [hgds]; omega)]
  simp only []
  rw [hgds]
  rw [getD_set_self s.ram (s.reg.getD 7 0 - 1).toNat (s.reg.getD r.toNat 0)
      (by rw [hram]; omega)]
  rw [getD_set_ne (s.reg.set 7 (s.reg.getD 7 0 - 1)) r.toNat 7 (s.reg.getD r.toNat 0) h7r]
  rw [hgds]
  rw [show s.reg.getD 7 0 - 1 + 1 = s.reg.getD 7 0 from by omega]
  rw [List.set_comm (s.reg.getD 7 0 - 1) (s.reg.getD r.toNat 0) s.reg
      (by omega : (7 : Nat) ≠ r.toNat)]
  rw [List.set_set (s.reg.getD 7 0 - 1) (s.reg.getD 7 0)
      (s.reg.set r.toNat (s.reg.getD r.toNat 0)) 7]
  rw [set_getD_self s.reg r.toNat (by rw [hlen]; omega)]
  rw [set_getD_self s.reg 7 hlen7]

/-- Witness for the amended C7 at a fresh machine, register 0. -/
theorem c7_push_pop_roundtrip_gp_witness :
    (c7state.reg.length = 8 ∧ c7state.ram.length = 256 ∧ (0 : Int) ≤ 0 ∧
      (0 : Int) < 7 ∧ 0 < c7state.reg.getD 7 0 ∧ c7state.reg.getD 7 0 < 256) ∧
    (CPU.PUSH c7state 0 0 >>= fun t => CPU.POP t 0 0) =
      .ok { c7state with
        ram := c7state.ram.set (c7state.reg.getD 7 0 - 1).toNat
                 (c7state.reg.getD (0 : Int).toNat 0) } :=
  ⟨⟨rfl, rfl, by decide, by decide, by decide, by decide⟩,
   c7_push_pop_roundtrip_gp c7state 0 rfl rfl (by decide) (by decide)
     (by decide) (by decide)⟩

/-- C6: with the stack pointer in range and any target register, `CALL`
pushes the address just past its two-byte instruction (pc + 2) onto the
stack and jumps to the address in the named register; the matching `RET`
pops that saved address back into the program counter, so call-then-return
resumes at exactly pc + 2, with the whole register file (including the
stack pointer) restored. -/
theorem c6_call_ret_roundtrip (s : CPUState) (r : Int)
    (hlen : s.reg.length = 8) (hram : s.ram.length = 256)
    (hr0 : 0 ≤ r) (hr : r < 8)
    (hsp0 : 1 ≤ s.reg.getD 7 0) (hsp1 : s.reg.getD 7 0 ≤ 256) :
    ∃ sc, CPU.CALL s r 0 = .ok sc ∧
      sc.ram.getD (s.reg.getD 7 0 - 1).toNat 0 = s.pc + 2 ∧
      sc.pc = sc.reg.getD r.toNat 0 ∧
      CPU.RET sc 0 0 = .ok
        { s with ram := s.ram.set (s.reg.getD 7 0 - 1).toNat (s.pc + 2),
                 pc := s.pc + 2 } := by
  have hlen7 : (7 : Nat) < s.reg.length := by rw [hlen]; norm_num
  have hgds : (s.reg.set 7 (s.reg.getD 7 0 - 1)).getD 7 0 = s.reg.getD 7 0 - 1 :=
    getD_set_self s.reg 7 (s.reg.getD 7 0 - 1) hlen7
  refine ⟨_, CALL_spec s r hlen hram hr0 hr hsp0 hsp1, ?_, rfl, ?_⟩
  · show (s.ram.set (s.reg.getD 7 0 - 1).toNat (s.pc + 2)).getD
        (s.reg.getD 7 0 - 1).toNat 0 = s.pc + 2
    exact getD_set_self s.ram (s.reg.getD 7 0 - 1).toNat (s.pc + 2)
      (by rw [hram]; omega)
  · rw [RET_spec
        { s with reg := s.reg.set 7 (s.reg.getD 7 0 - 1),
                 ram := s.ram.set (s.reg.getD 7 0 - 1).toNat (s.pc + 2),
                 pc := (s.reg.set 7 (s.reg.getD 7 0 - 1)).getD r.toNat 0 }
        (by show (s.reg.set 7 (s.reg.getD 7 0 - 1)).length = 8
            rw [List.length_set, hlen])
        (by show (s.ram.set (s.reg.getD 7 0 - 1).toNat (s.pc + 2)).length = 256
            rw [List.length_set, hram])
        (by show (0 : Int) ≤ (s.reg.set 7 (s.reg.getD 7 0 - 1)).getD 7 0
            rw [hgds]; omega)
        (by show (s.reg.set 7 (s.reg.getD 7 0 - 1)).getD 7 0 < 256
            rw [hgds]; omega)]
    simp only []
    rw [hgds]
    rw [getD_set_self s.ram (s.reg.getD 7 0 - 1).toNat (s.pc + 2)
        (by rw [hram]; omega)]
    rw [show s.reg.getD 7 0 - 1 + 1 = s.reg.getD 7 0 from by omega]
    rw [List.set_set (s.reg.getD 7 0 - 1) (s.reg.getD 7 0) s.reg 7]
    rw [set_getD_self s.reg 7 hlen7]

/-- Witness for C6 at a fresh machine, register 0. -/
theorem c6_call_ret_roundtrip_witness :
    ((initCPU []).reg.length = 8 ∧ (initCPU []).ram.length = 256 ∧
      (0 : Int) ≤ 0 ∧ (0 : Int) < 8 ∧ 1 ≤ (initCPU []).reg.getD 7 0 ∧
      (initCPU []).reg.getD 7 0 ≤ 256) ∧
    (∃ sc, CPU.CALL (initCPU []) 0 0 = .ok sc ∧
      sc.ram.getD ((initCPU []).reg.getD 7 0 - 1).toNat 0 = (initCPU []).pc + 2 ∧
      sc.pc = sc.reg.getD (0 : Int).toNat 0 ∧
      CPU.RET sc 0 0 = .ok
        { initCPU [] with
            ram := (initCPU []).ram.set ((initCPU []).reg.getD 7 0 - 1).toNat
                     ((initCPU []).pc + 2),
            pc := (initCPU []).pc + 2 }) :=
  ⟨⟨rfl, rfl, by decide, by decide, by decide, by decide⟩,
   c6_call_ret_roundtrip (initCPU []) 0 rfl rfl (by decide) (by decide)
     (by decide) (by decide)⟩

/-- C8 amended: the two directions of leaving the stack bounds behave
differently.  Popping with the stack pointer at 256 is a reported failure
(`IndexError`).  Pushing with the stack pointer at 0, however, is not: the
write lands silently in memory cell 255 via negative indexing and the
stack pointer continues to -1. -/
theorem c8_stack_bounds_behavior (s : CPUState) (r : Int)
    (hlen : s.reg.length = 8) (hram : s.ram.length = 256)
    (hr0 : 0 ≤ r) (hr : r < 8) :
    (s.reg.getD 7 0 = 0 →
      CPU.PUSH s r 0 = .ok { s with reg := s.reg.set 7 (-1),
                                    ram := s.ram.set 255 (s.reg.getD r.toNat 0) }) ∧
    (s.reg.getD 7 0 = 256 → CPU.POP s r 0 = .error (s, .indexError)) := by
  have hrI : r < (s.reg.length : Int) := by rw [hlen]; exact_mod_cast hr
  have h70 : (0 : Int) ≤ 7 := by norm_num
  have h7I : (7 : Int) < (s.reg.length : Int) := by rw [hlen]; norm_num
  have hlen7 : (7 : Nat) < s.reg.length := by rw [hlen]; norm_num
  constructor
  · intro hsp
    unfold CPU.PUSH
    simp only [SP]
    rw [regRead_ok s r hr0 hrI]
    simp only [ok_bind]
    rw [regRead_ok s 7 h70 h7I]
    simp only [ok_bind, int_toNat_seven]
    rw [hsp]
    rw [regWrite_ok s 7 (0 - 1) h70 h7I]
    simp only [ok_bind, int_toNat_seven]
    rw [regRead_ok { s with reg := s.reg.set 7 (0 - 1) } 7 h70
        (by show (7 : Int) < ((s.reg.set 7 (0 - 1)).length : Int)
            rw [List.length_set, hlen]; norm_num)]
    simp only [ok_bind, int_toNat_seven]
    rw [getD_set_self s.reg 7 (0 - 1) hlen7]
    rw [ramWrite_neg { s with reg := s.reg.set 7 (0 - 1) } (s.reg.getD r.toNat 0)
        (0 - 1)
        (by show -((s.ram.length : Int)) ≤ 0 - 1
            rw [hram]; norm_num)
        (by norm_num)]
    simp only [ok_bind]
    rw [show ((0 : Int) - 1 + (s.ram.length : Int)).toNat = 255 from by
          rw [hram]; rfl]
    rfl
  · intro hsp
    unfold CPU.POP
    simp only [SP]
    rw [regRead_ok s 7 h70 h7I]
    simp only [ok_bind, int_toNat_seven]
    rw [hsp]
    rw [ramRead_oob s 256 (by rw [hram]; norm_num)]
    rfl

/-- Witness for the amended C8 at a machine with a full stack (stack
pointer 0). -/
theorem c8_stack_bounds_behavior_witness :
    (c8state.reg.length = 8 ∧ c8state.ram.length = 256 ∧
      (0 : Int) ≤ 0 ∧ (0 : Int) < 8) ∧
    ((c8state.reg.getD 7 0 = 0 →
      CPU.PUSH c8state 0 0 = .ok
        { c8state with reg := c8state.reg.set 7 (-1),
                       ram := c8state.ram.set 255 (c8state.reg.getD (0 : Int).toNat 0) }) ∧
    (c8state.reg.getD 7 0 = 256 → CPU.POP c8state 0 0 = .error (c8state, .indexError))) :=
  ⟨⟨rfl, rfl, by decide, by decide⟩,
   c8_stack_bounds_behavior c8state 0 rfl rfl (by decide) (by decide)⟩
